import Mathlib

/-!
Verification of the credential lifecycle core of the project-service
repository (Python/FastAPI).  The Python modules under src/app are shallowly
embedded: DAO-layer SQL over the relational tables is modelled as pure
functions over explicit list-backed table states, the Vault secret store as
an association list from (normalized) paths to payloads, and the service
layer as state-passing functions returning either a result or the raised
exception.  External library code (the Fernet cipher, base64, the hvac
client backend and the file system) is abstracted as explicitly passed
function bundles carrying their documented contracts.

Python-specific semantics that matter here and are modelled explicitly:
  - keyword-argument binding at DAO call sites (a missing required parameter
    or an unexpected keyword raises TypeError before the callee body runs);
  - string truthiness (None and the empty string are falsy);
  - exceptions propagate while leaving already performed state mutations
    (Vault writes) in place.

Timestamps (created_at / updated_at) are omitted from entity states: no
claim under verification mentions them and no control flow branches on
them.
-/

namespace ProjectService

/-- Python-style truthiness of an optional string: None and the empty
string are falsy. -/
def optTruthy : Option String → Bool
  | none => false
  | some s => !s.isEmpty

/-- Dynamic value appearing in Python dict-shaped responses. -/
inductive PyVal where
  | vnone : PyVal
  | vint (n : Int) : PyVal
  | vstr (s : String) : PyVal
deriving DecidableEq, Repr

/-- Lift an optional string to a Python value (None or str). -/
def PyVal.ofOptStr : Option String → PyVal
  | none => .vnone
  | some s => .vstr s

/-- Lift an optional int to a Python value (None or int). -/
def PyVal.ofOptInt : Option Int → PyVal
  | none => .vnone
  | some n => .vint n

/-!  Entity model, from src/app/models/entities.py.  -/

/-- Customer entity (entities.py).  Tenant root. -/
structure Customer where
  id : Int
  name : String
  description : Option String := none
  contact_email : Option String := none
  contact_phone : Option String := none
deriving DecidableEq, Repr

/-- Project entity (entities.py). -/
structure Project where
  id : Int
  customer_id : Int
  name : String
  description : Option String := none
deriving DecidableEq, Repr

/-- Vendor entity (entities.py). -/
structure Vendor where
  id : Int
  name : String
  display_name : String
  description : Option String := none
deriving DecidableEq, Repr

/-- Credential entity (entities.py).  The secret_key attribute is present on
the Python class but is never populated from the relational store; project_id
is nullable in the database rows the DAO reads back. -/
structure Credential where
  id : Int
  customer_id : Int
  project_id : Option Int := none
  vendor_id : Int
  access_key : String
  secret_key : Option String := none
  resource_user : Option String := none
  labels : Option String := none
  status : String := "active"
  vault_path : Option String := none
deriving DecidableEq, Repr

/-- UserPermission entity (entities.py).  A null customer_id or project_id
means the grant covers all customers, respectively all projects. -/
structure UserPermission where
  id : Int
  user_id : String
  customer_id : Option Int := none
  project_id : Option Int := none
  permission_type : String := "read"
deriving DecidableEq, Repr

/-- AuditLog entity (entities.py). -/
structure AuditLog where
  id : Int
  user_id : String
  action : String
  resource_type : String
  resource_id : Option Int := none
  customer_id : Option Int := none
  project_id : Option Int := none
  vendor_id : Option Int := none
  credential_id : Option Int := none
  details : Option String := none
  ip_address : Option String := none
  user_agent : Option String := none
deriving DecidableEq, Repr

/-!  Crypto utility, from src/app/utils/crypto_util.py.

The Fernet cipher and the urlsafe base64 codec are external library
dependencies (cryptography.fernet, base64); they are modelled as an
abstract suite carrying the round-trip contracts those libraries document:
Fernet decryption of a Fernet-encrypted token returns the original bytes,
and base64 decoding inverts base64 encoding.  fernetEncrypt models
cipher_suite.encrypt applied to the utf-8 encoding of the plaintext, and
b64encode models base64.urlsafe_b64encode followed by utf-8 decoding of the
(ASCII) result, so both operate on String. -/
structure CipherSuite where
  fernetEncrypt : String → String
  fernetDecrypt : String → Option String
  b64encode : String → String
  b64decode : String → Option String
  fernet_roundtrip : ∀ s, fernetDecrypt (fernetEncrypt s) = some s
  b64_roundtrip : ∀ s, b64decode (b64encode s) = some s
  fernet_nonempty : ∀ s, fernetEncrypt s ≠ ""
  b64_nonempty : ∀ s, s ≠ "" → b64encode s ≠ ""

namespace CryptoUtil

/-- CryptoUtil.encrypt (crypto_util.py lines 54-71): empty plaintext maps to
the empty string; otherwise the plaintext is Fernet-encrypted and the token
is urlsafe-base64 encoded. -/
def encrypt (C : CipherSuite) (plaintext : String) : String :=
  if plaintext = "" then ""
  else C.b64encode (C.fernetEncrypt plaintext)

/-- CryptoUtil.decrypt (crypto_util.py lines 73-94): empty ciphertext maps
to the empty string; otherwise base64-decode then Fernet-decrypt, wrapping
any failure in a ValueError. -/
def decrypt (C : CipherSuite) (ciphertext : String) : Except String String :=
  if ciphertext = "" then .ok ""
  else
    match C.b64decode ciphertext with
    | none => .error "Failed to decrypt data"
    | some encrypted_bytes =>
      match C.fernetDecrypt encrypted_bytes with
      | none => .error "Failed to decrypt data"
      | some plaintext => .ok plaintext

/-- CryptoUtil.mask_access_key (crypto_util.py lines 96-114): empty key maps
to the empty string; a key no longer than visible_chars is fully masked; a
longer key keeps its first visible_chars characters and masks the rest. -/
def mask_access_key (access_key : String) (visible_chars : Nat := 4) : String :=
  if access_key = "" then ""
  else if access_key.length ≤ visible_chars then
    String.mk (List.replicate access_key.length '*')
  else
    String.mk (access_key.data.take visible_chars
      ++ List.replicate (access_key.length - visible_chars) '*')

end CryptoUtil

/-- Minimal cipher suite satisfying the library contracts (the token is the
plaintext behind a one-character header); used to instantiate universally
quantified statements at concrete inputs. -/
def sampleCipher : CipherSuite where
  fernetEncrypt := fun s => String.mk ('F' :: s.data)
  fernetDecrypt := fun t =>
    match t.data with
    | 'F' :: rest => some (String.mk rest)
    | _ => none
  b64encode := fun s => s
  b64decode := fun s => some s
  fernet_roundtrip := fun _ => rfl
  b64_roundtrip := fun _ => rfl
  fernet_nonempty := fun s h => by
    have : ('F' :: s.data) = ([] : List Char) := congrArg String.data h
    exact absurd this (by simp)
  b64_nonempty := fun _ h => h

/-!  Relational state.  Each DAO (src/app/dao) reads and writes one MySQL
table; the tables are modelled as lists of entity rows plus the
auto-increment counters the inserts consume. -/

/-- Relational database state: one list per table touched by the claims. -/
structure Db where
  customers : List Customer := []
  projects : List Project := []
  vendors : List Vendor := []
  credentials : List Credential := []
  user_permissions : List UserPermission := []
  audit_logs : List AuditLog := []
  next_credential_id : Int := 1
  next_audit_id : Int := 1
deriving DecidableEq, Repr

/-- SQL equality between a nullable column value and a nullable bound
parameter: a comparison involving NULL is never satisfied (three-valued
logic collapsed to the rows a WHERE clause keeps). -/
def sqlEq : Option Int → Option Int → Bool
  | some a, some b => a == b
  | _, _ => false

namespace CustomerDAO

/-- CustomerDAO.get_by_id: SELECT ... FROM customers WHERE id = %s. -/
def get_by_id (db : Db) (customer_id : Int) : Option Customer :=
  db.customers.find? (fun c => c.id == customer_id)

end CustomerDAO

namespace ProjectDAO

/-- ProjectDAO.get_by_id: SELECT ... FROM projects WHERE id = %s. -/
def get_by_id (db : Db) (project_id : Int) : Option Project :=
  db.projects.find? (fun p => p.id == project_id)

end ProjectDAO

namespace VendorDAO

/-- VendorDAO.get_by_id: SELECT ... FROM vendors WHERE id = %s. -/
def get_by_id (db : Db) (vendor_id : Int) : Option Vendor :=
  db.vendors.find? (fun v => v.id == vendor_id)

end VendorDAO

namespace UserPermissionDAO

/-- Row filter of the permission query (user_permission_dao.py lines
116-121): user_id = %s AND (customer_id IS NULL OR customer_id = %s) AND
(project_id IS NULL OR project_id = %s). -/
def matchesGrant (user_id : String) (customer_id project_id : Option Int)
    (up : UserPermission) : Bool :=
  up.user_id == user_id
    && (up.customer_id.isNone || sqlEq up.customer_id customer_id)
    && (up.project_id.isNone || sqlEq up.project_id project_id)

/-- UserPermissionDAO.check_permission (user_permission_dao.py lines
98-124): SELECT COUNT(*) with the filter above, returning count > 0. -/
def check_permission (db : Db) (user_id : String)
    (customer_id project_id : Option Int := none) : Bool :=
  decide (0 < db.user_permissions.countP (matchesGrant user_id customer_id project_id))

end UserPermissionDAO

namespace AuditLogDAO

/-- AuditLogDAO.create (audit_log_dao.py lines 13-57): INSERT one audit row
and return it; every keyword the services pass exists in this signature, so
the call always binds. -/
def create (db : Db) (user_id action resource_type : String)
    (resource_id customer_id project_id vendor_id credential_id : Option Int := none)
    (details ip_address user_agent : Option String := none) : Db × AuditLog :=
  let row : AuditLog :=
    { id := db.next_audit_id, user_id, action, resource_type, resource_id,
      customer_id, project_id, vendor_id, credential_id, details,
      ip_address, user_agent }
  ({ db with audit_logs := db.audit_logs ++ [row],
             next_audit_id := db.next_audit_id + 1 }, row)

end AuditLogDAO

/-!  Python keyword-argument binding.  CredentialService calls two
CredentialDAO methods with keyword sets that do not fit the DAO signatures;
CPython raises TypeError at the call, before the callee body runs, and the
TypeError is not a ValueError so the one except clause in create_credential
does not catch it.  Binding is modelled over the parameter-name lists of
the callee signature and the keyword names supplied at the call site. -/

/-- First required parameter of the callee signature that the call site
does not supply (None when all required parameters are bound). -/
def pythonMissingRequired (required provided : List String) : Option String :=
  required.find? (fun n => !(provided.contains n))

/-- First keyword at the call site that names no parameter of the callee
signature (None when every keyword is accepted). -/
def pythonUnexpectedKwarg (params provided : List String) : Option String :=
  provided.find? (fun n => !(params.contains n))

namespace CredentialDAO

/-- Required parameters of CredentialDAO.create (credential_dao.py line 13):
customer_id, project_id, vendor_id and access_key carry no default. -/
def createRequiredParams : List String :=
  ["customer_id", "project_id", "vendor_id", "access_key"]

/-- Defaulted parameters of CredentialDAO.create (credential_dao.py lines
14-17). -/
def createOptionalParams : List String :=
  ["vault_path", "resource_user", "labels", "status"]

/-- Parameters of CredentialDAO.update (credential_dao.py lines 167-168):
credential_id plus the three defaulted columns it can set. -/
def updateParams : List String :=
  ["credential_id", "resource_user", "labels", "status"]

/-- CredentialDAO.create body (credential_dao.py lines 13-51): INSERT the
credential row and read it back.  This body only runs when the keyword
binding at the call site succeeds. -/
def create (db : Db) (customer_id project_id vendor_id : Int)
    (access_key : String) (vault_path : Option String := none)
    (resource_user : Option String := none) (labels : Option String := none)
    (status : String := "active") : Db × Credential :=
  let row : Credential :=
    { id := db.next_credential_id, customer_id, project_id := some project_id,
      vendor_id, access_key, vault_path, resource_user, labels, status }
  ({ db with credentials := db.credentials ++ [row],
             next_credential_id := db.next_credential_id + 1 }, row)

/-- CredentialDAO.get_by_id: SELECT ... FROM credentials WHERE id = %s. -/
def get_by_id (db : Db) (credential_id : Int) : Option Credential :=
  db.credentials.find? (fun c => c.id == credential_id)

/-- CredentialDAO.update body (credential_dao.py lines 167-200): build the
SET list from the non-None arguments; with an empty SET list fall back to
get_by_id, otherwise UPDATE the row and re-read it (None when no row
matches).  This body only runs when the keyword binding at the call site
succeeds. -/
def update (db : Db) (credential_id : Int)
    (resource_user labels status : Option String := none) :
    Db × Option Credential :=
  if resource_user.isNone && labels.isNone && status.isNone then
    (db, get_by_id db credential_id)
  else
    let apply := fun (c : Credential) =>
      if c.id == credential_id then
        { c with resource_user := if resource_user.isSome then resource_user else c.resource_user,
                 labels := if labels.isSome then labels else c.labels,
                 status := status.getD c.status }
      else c
    let db' := { db with credentials := db.credentials.map apply }
    if db.credentials.any (fun c => c.id == credential_id) then
      (db', get_by_id db' credential_id)
    else
      (db, none)

/-- CredentialDAO.delete (credential_dao.py lines 202-214): soft delete by
setting status to deleted; returns whether a row matched. -/
def delete (db : Db) (credential_id : Int) : Db × Bool :=
  let apply := fun (c : Credential) =>
    if c.id == credential_id then { c with status := "deleted" } else c
  ({ db with credentials := db.credentials.map apply },
   db.credentials.any (fun c => c.id == credential_id))

end CredentialDAO

/-!  Vault secret store adapter, from src/app/utils/vault_util.py.

The hvac client library and the Vault server are external dependencies.
The client object is modelled by the one field the adapter mutates (its
token); the server is modelled by a backend bundle (approle login outcome
and the is_authenticated answer) plus, for the key-value operations, an
association list from normalized path to payload together with fault sets
naming the raw paths whose backend calls raise.  Exception messages are
abridged to stable prefixes where the Python code embeds backend exception
text. -/

/-- Payload dictionary the credential service stores under a vault path
(credential_service.py lines 80-85 and 413-418).  The secret_key entry
holds the encrypted secret. -/
structure VaultPayload where
  secret_key : String
  access_key : String
  customer_id : Int
  vendor_id : Int
deriving DecidableEq, Repr

/-- State of an hvac.Client: the token attribute the adapter assigns. -/
structure HvacClient where
  token : Option String := none
deriving DecidableEq, Repr

/-- Vault server behaviour seen through the hvac client: the approle login
outcome (client_token or raised exception message) and the answer of
is_authenticated for a given client token. -/
structure VaultBackend where
  approleLogin : String → String → Except String String
  isAuthenticated : Option String → Bool

/-- Result of probing a credential file: absent on disk, unreadable
(OSError), or its contents. -/
inductive FileResult where
  | absent : FileResult
  | ioError : FileResult
  | content (text : String) : FileResult
deriving DecidableEq, Repr

/-- Vault-related settings fields (settings.py lines 52-62), after the
cleaning pass of Settings, as VaultUtil._connect reads them. -/
structure VaultSettings where
  vault_enabled : Bool := false
  vault_addr : Option String := none
  vault_auth_method : Option String := none
  vault_role_id : Option String := none
  vault_secret_id : Option String := none
  vault_token : Option String := none
  vault_role_id_file : Option String := none
  vault_secret_id_file : Option String := none
deriving DecidableEq, Repr

/-- Boolean test for one list of characters occurring inside another. -/
def listIsInfix (needle : List Char) : List Char → Bool
  | [] => needle.isEmpty
  | c :: t => needle.isPrefixOf (c :: t) || listIsInfix needle (t)

/-- Boolean substring test on strings. -/
def strContainsSub (hay needle : String) : Bool :=
  listIsInfix needle.data hay.data

/-- Python str.lower(), modelled character-wise. -/
def strToLower (s : String) : String :=
  String.mk (s.data.map Char.toLower)

namespace VaultUtil

/-- Message of the ConnectionError re-raised by the outer except clause of
VaultUtil._connect (vault_util.py lines 119-124): a sealed-vault message
when the wrapped exception text mentions sealed, a generic connect-failure
message otherwise. -/
def connectError (msg : String) : String :=
  if strContainsSub (strToLower msg) "sealed" then
    ("Vault is sealed. Please unseal Vault first: " ++ msg)
  else
    ("Failed to connect to Vault: " ++ msg)

/-- File fallback for role_id / secret_id (vault_util.py lines 53-76): when
the settings value is falsy and a file path is configured and exists, read
the file, strip it, and turn an empty result or an OSError into None. -/
def resolveCredFile (value file : Option String)
    (fs : String → FileResult) : Option String :=
  if !(optTruthy value) && optTruthy file then
    match file with
    | some fpath =>
      match fs fpath with
      | .absent => value
      | .ioError => none
      | .content text =>
        let stripped := text.trim
        if stripped.isEmpty then none else some stripped
    | none => value
  else value

/-- Auth method resolution (vault_util.py lines 78-101): auto-select from
available credentials when no method is configured, then fall across to the
other method when the configured one lacks credentials.  None models the
early returns that leave self.client as None without raising. -/
def resolveMethod (m token role secret : Option String) : Option String :=
  let m1 : Option String :=
    if !(optTruthy m) then
      if optTruthy token then some "token"
      else if optTruthy role && optTruthy secret then some "approle"
      else none
    else m
  match m1 with
  | none => none
  | some m2 =>
    let m3 : Option String :=
      if m2 == "approle" && !(optTruthy role && optTruthy secret) then
        if optTruthy token then some "token" else none
      else some m2
    match m3 with
    | none => none
    | some m4 =>
      if m4 == "token" && !(optTruthy token) then
        if optTruthy role && optTruthy secret then some "approle" else none
      else some m4

/-- VaultUtil._connect (vault_util.py lines 22-124).  Returns the final
self.client on normal completion (None for the silent early returns) and an
error for the ConnectionError the outer except clause re-raises. -/
def connect (st : VaultSettings) (fs : String → FileResult)
    (B : VaultBackend) : Except String (Option HvacClient) :=
  if !(optTruthy st.vault_addr) then
    .error (connectError "Missing Vault configuration in .env: VAULT_ADDR")
  else
    let role_id := resolveCredFile st.vault_role_id st.vault_role_id_file fs
    let secret_id := resolveCredFile st.vault_secret_id st.vault_secret_id_file fs
    let vault_token := st.vault_token
    match resolveMethod st.vault_auth_method vault_token role_id secret_id with
    | none => .ok none
    | some m =>
      if m == "approle" then
        match B.approleLogin (role_id.getD "") (secret_id.getD "") with
        | .error e => .error (connectError e)
        | .ok client_token =>
          let client : HvacClient := { token := some client_token }
          if B.isAuthenticated client.token then .ok (some client)
          else .error (connectError "Failed to authenticate with Vault")
      else if m == "token" then
        let client : HvacClient := { token := vault_token }
        if B.isAuthenticated client.token then .ok (some client)
        else .error (connectError "Failed to authenticate with Vault")
      else
        .error (connectError ("Unsupported Vault auth method: " ++ m))

/-- VaultUtil.__init__ (vault_util.py lines 15-20): connect only when Vault
is enabled; a disabled Vault leaves the client as None. -/
def init (st : VaultSettings) (fs : String → FileResult)
    (B : VaultBackend) : Except String (Option HvacClient) :=
  if st.vault_enabled then connect st fs B else .ok none

/-- VaultUtil.is_connected (vault_util.py lines 202-204): a client exists
and is authenticated. -/
def is_connected (B : VaultBackend) : Option HvacClient → Bool
  | none => false
  | some c => B.isAuthenticated c.token

end VaultUtil

/-- Raw paths whose backend key-value calls raise, one set per verb. -/
structure VaultFaults where
  writeFails : List String := []
  readFails : List String := []
  deleteFails : List String := []
deriving DecidableEq, Repr

/-- Path normalization shared by the three key-value operations
(vault_util.py lines 141-143 and analogues): a leading secret/ mount prefix
is stripped before the backend call. -/
def stripMount (path : String) : String :=
  if "secret/".isPrefixOf path then path.drop "secret/".length else path

/-- Overwrite-or-insert on the path-addressed store, as
create_or_update_secret behaves. -/
def vaultSet (store : List (String × VaultPayload)) (path : String)
    (data : VaultPayload) : List (String × VaultPayload) :=
  if store.any (fun kv => kv.1 == path) then
    store.map (fun kv => if kv.1 == path then (kv.1, data) else kv)
  else store ++ [(path, data)]

namespace VaultUtil

/-- VaultUtil.write_secret (vault_util.py lines 126-152). -/
def write_secret (client : Option HvacClient) (F : VaultFaults)
    (store : List (String × VaultPayload)) (path : String)
    (data : VaultPayload) : Except String (List (String × VaultPayload)) :=
  match client with
  | none => .error "Vault client not initialized"
  | some _ =>
    if F.writeFails.contains path then
      .error ("Failed to write secret to path " ++ path)
    else
      .ok (vaultSet store (stripMount path) data)

/-- VaultUtil.read_secret (vault_util.py lines 154-176).  A missing path
makes the backend raise, which the method wraps into a ValueError. -/
def read_secret (client : Option HvacClient) (F : VaultFaults)
    (store : List (String × VaultPayload)) (path : String) :
    Except String VaultPayload :=
  match client with
  | none => .error "Vault client not initialized"
  | some _ =>
    if F.readFails.contains path then
      .error ("Failed to read secret from path " ++ path)
    else
      match store.find? (fun kv => kv.1 == stripMount path) with
      | some kv => .ok kv.2
      | none => .error ("Failed to read secret from path " ++ path)

/-- VaultUtil.delete_secret (vault_util.py lines 178-200). -/
def delete_secret (client : Option HvacClient) (F : VaultFaults)
    (store : List (String × VaultPayload)) (path : String) :
    Except String (List (String × VaultPayload)) :=
  match client with
  | none => .error "Vault client not initialized"
  | some _ =>
    if F.deleteFails.contains path then
      .error ("Failed to delete secret from path " ++ path)
    else
      .ok (store.filter (fun kv => kv.1 != stripMount path))

end VaultUtil

/-!  Credential service, from src/app/services/credential_service.py. -/

/-- CredentialCreate request schema (schemas.py lines 116-125).  All three
ids are required and validated positive; access_key and secret_key are
required non-empty strings. -/
structure CredentialCreate where
  customer_id : Int
  project_id : Int
  vendor_id : Int
  access_key : String
  secret_key : String
  resource_user : Option String := none
  labels : Option String := none
  status : String := "active"
deriving DecidableEq, Repr

/-- CredentialUpdate request schema (schemas.py lines 128-134): every field
optional (patch semantics). -/
structure CredentialUpdate where
  access_key : Option String := none
  secret_key : Option String := none
  resource_user : Option String := none
  labels : Option String := none
  status : Option String := none
deriving DecidableEq, Repr

/-- CredentialContextResponse schema (schemas.py lines 155-166).  The
declared fields carry no secret key. -/
structure CredentialContextResponse where
  credential_id : Int
  customer_name : String
  project_name : String
  vendor_name : String
  vendor_display_name : String
  access_key : String
  vault_path : String
  resource_user : Option String := none
  status : String
  labels : Option String := none
deriving DecidableEq, Repr

/-- Names of the fields declared on CredentialContextResponse in
schemas.py, in declaration order. -/
def CredentialContextResponse.fieldNames : List String :=
  ["credential_id", "customer_name", "project_name", "vendor_name",
   "vendor_display_name", "access_key", "vault_path", "resource_user",
   "status", "labels"]

/-- Exception surfaced by a service operation: an HTTPException with status
code and detail, or an uncaught Python TypeError. -/
inductive SvcError where
  | http (status_code : Nat) (detail : String)
  | pyTypeError (msg : String)
deriving DecidableEq, Repr

/-- Observable side-effect events of one service operation, in program
order: successful Vault writes and deletes, and the invocations of the
credential-row INSERT and UPDATE DAO methods. -/
inductive Event where
  | vaultWrite (path : String)
  | vaultDelete (path : String)
  | dbInsertCall
  | dbUpdateCall
deriving DecidableEq, Repr

/-- Mutable state a service operation reads and writes: the relational
database, the Vault key-value store, and the event trace accumulated so
far. -/
structure Sys where
  db : Db
  vault : List (String × VaultPayload) := []
  trace : List Event := []
deriving DecidableEq, Repr

/-- State of the VaultUtil instance held by the service. -/
structure VaultUtilObj where
  client : Option HvacClient := none
deriving DecidableEq, Repr

/-- Read-only collaborators of CredentialService: the vault path prefix
setting, the optional VaultUtil (None when Vault is disabled), the Vault
server behaviour, the fault sets for the key-value verbs, and the cipher
suite. -/
structure ServiceEnv where
  vault_credential_path : String
  vault_util : Option VaultUtilObj := none
  backend : VaultBackend
  faults : VaultFaults := {}
  cipher : CipherSuite

/-- Truthiness of self.vault_util and self.vault_util.is_connected(), the
guard used by every vault-touching service path. -/
def ServiceEnv.vaultAvailable (env : ServiceEnv) : Bool :=
  match env.vault_util with
  | none => false
  | some vu => VaultUtil.is_connected env.backend vu.client

/-- Client handed to the key-value operations. -/
def ServiceEnv.client (env : ServiceEnv) : Option HvacClient :=
  match env.vault_util with
  | none => none
  | some vu => vu.client

/-- Vault path computed by create_credential (line 76) and
update_credential (line 408): prefix, customer id, the literal no-project
segment, vendor id, access key. -/
def mkVaultPath (base : String) (customer_id vendor_id : Int)
    (access_key : String) : String :=
  base ++ "/" ++ toString customer_id ++ "/no-project/" ++ toString vendor_id ++ "/" ++ access_key

/-- Keyword names supplied at the CredentialDAO.create call site
(credential_service.py lines 106-114).  No project_id keyword appears. -/
def credentialServiceCreateCallKwargs : List String :=
  ["customer_id", "vendor_id", "access_key", "vault_path",
   "resource_user", "labels", "status"]

/-- Keyword names supplied at the CredentialDAO.update call site
(credential_service.py lines 433-440). -/
def credentialServiceUpdateCallKwargs : List String :=
  ["credential_id", "access_key", "vault_path",
   "resource_user", "labels", "status"]

/-- TypeError Python raises at the CredentialDAO.create call site:
the required project_id parameter is not supplied. -/
def createCallTypeError : SvcError :=
  .pyTypeError "create() missing 1 required positional argument: project_id"

/-- TypeError Python raises at the CredentialDAO.update call site: the
access_key keyword names no parameter of the DAO method. -/
def updateCallTypeError : SvcError :=
  .pyTypeError "update() got an unexpected keyword argument: access_key"

namespace CredentialService

/-- Vault path computed by create_credential (credential_service.py line
76). -/
def createVaultPath (env : ServiceEnv) (d : CredentialCreate) : String :=
  mkVaultPath env.vault_credential_path d.customer_id d.vendor_id d.access_key

/-- Payload create_credential writes under that path (lines 79-85), with
the secret key encrypted first. -/
def createVaultPayload (env : ServiceEnv) (d : CredentialCreate) : VaultPayload :=
  { secret_key := CryptoUtil.encrypt env.cipher d.secret_key,
    access_key := d.access_key, customer_id := d.customer_id,
    vendor_id := d.vendor_id }

/-- Access key used for the new vault path in update_credential (line 405):
the updated one when supplied, the existing one otherwise. -/
def resolveNewAccessKey (credential : Credential) (d : CredentialUpdate) : String :=
  if optTruthy d.access_key then d.access_key.getD "" else credential.access_key

/-- New vault path computed by update_credential (line 408). -/
def updateNewVaultPath (env : ServiceEnv) (credential : Credential)
    (d : CredentialUpdate) : String :=
  mkVaultPath env.vault_credential_path credential.customer_id
    credential.vendor_id (resolveNewAccessKey credential d)

/-- CredentialService.create_credential (credential_service.py lines
37-136).  Validate customer and vendor, require Vault availability, encrypt
and write the secret, then call CredentialDAO.create.  That call supplies
the keywords in credentialServiceCreateCallKwargs while the DAO signature
requires project_id, so Python raises TypeError there (see
createCall_missing_project_id) before any row is inserted, and the
except ValueError clause does not catch a TypeError. -/
def create_credential (env : ServiceEnv) (sys : Sys) (d : CredentialCreate)
    (user_id : String) (ip_address user_agent : Option String := none) :
    Sys × Except SvcError (List (String × PyVal)) :=
  match CustomerDAO.get_by_id sys.db d.customer_id with
  | none =>
    let cid := d.customer_id
    (sys, .error (.http 404 ("Customer with ID " ++ toString cid ++ " not found")))
  | some _customer =>
    match VendorDAO.get_by_id sys.db d.vendor_id with
    | none =>
      let vid := d.vendor_id
      (sys, .error (.http 404 ("Vendor with ID " ++ toString vid ++ " not found")))
    | some _vendor =>
      if env.vaultAvailable then
        let vault_path := createVaultPath env d
        let payload := createVaultPayload env d
        match VaultUtil.write_secret env.client env.faults sys.vault
            vault_path payload with
        | .error e =>
          (sys, .error (.http 500 ("Failed to store secret in Vault: " ++ e)))
        | .ok vault1 =>
          let sys1 : Sys :=
            { sys with vault := vault1,
                       trace := sys.trace ++ [.vaultWrite vault_path, .dbInsertCall] }
          (sys1, .error createCallTypeError)
      else
        (sys, .error (.http 503
          "Vault is not available. Cannot store credentials securely."))

/-- CredentialService.get_credential_context (credential_service.py lines
138-224): lookup, active check, permission check, related-entity
resolution, audit append, context response without any secret field. -/
def get_credential_context (env : ServiceEnv) (sys : Sys)
    (credential_id : Int) (user_id : String)
    (ip_address user_agent : Option String := none) :
    Sys × Except SvcError CredentialContextResponse :=
  match CredentialDAO.get_by_id sys.db credential_id with
  | none =>
    (sys, .error (.http 404 ("Credential with ID " ++ toString credential_id ++ " not found")))
  | some credential =>
    if credential.status != "active" then
      let st := credential.status
      (sys, .error (.http 400 ("Credential is not active (status: " ++ st ++ ")")))
    else if !(UserPermissionDAO.check_permission sys.db user_id
        (some credential.customer_id) credential.project_id) then
      (sys, .error (.http 403
        "User does not have permission to access this credential"))
    else
      let project_name :=
        match credential.project_id with
        | none => "no-project"
        | some pid =>
          match ProjectDAO.get_by_id sys.db pid with
          | some p => p.name
          | none => "no-project"
      match CustomerDAO.get_by_id sys.db credential.customer_id,
            VendorDAO.get_by_id sys.db credential.vendor_id with
      | some customer, some vendor =>
        let details := ("User " ++ user_id ++ " accessed credential context")
        let audited := AuditLogDAO.create sys.db user_id "use_credential"
          "credential" (some credential.id) (some credential.customer_id)
          credential.project_id (some credential.vendor_id)
          (some credential.id) (some details) ip_address user_agent
        ({ sys with db := audited.1 },
         .ok { credential_id := credential.id,
               customer_name := customer.name,
               project_name,
               vendor_name := vendor.name,
               vendor_display_name := vendor.display_name,
               access_key := credential.access_key,
               vault_path := credential.vault_path.getD "",
               resource_user := credential.resource_user,
               status := credential.status,
               labels := credential.labels })
      | _, _ => (sys, .error (.http 500 "Related entities not found"))

/-- CredentialService.get_credential_for_api_call (credential_service.py
lines 226-312): lookup, active check, permission check, Vault read and
decrypt, audit append, full dictionary including the decrypted secret. -/
def get_credential_for_api_call (env : ServiceEnv) (sys : Sys)
    (credential_id : Int) (user_id : String)
    (ip_address user_agent : Option String := none) :
    Sys × Except SvcError (List (String × PyVal)) :=
  match CredentialDAO.get_by_id sys.db credential_id with
  | none =>
    (sys, .error (.http 404 ("Credential with ID " ++ toString credential_id ++ " not found")))
  | some credential =>
    if credential.status != "active" then
      let st := credential.status
      (sys, .error (.http 400 ("Credential is not active (status: " ++ st ++ ")")))
    else if !(UserPermissionDAO.check_permission sys.db user_id
        (some credential.customer_id) credential.project_id) then
      (sys, .error (.http 403
        "User does not have permission to access this credential"))
    else if optTruthy credential.vault_path && env.vaultAvailable then
      match VaultUtil.read_secret env.client env.faults sys.vault
          (credential.vault_path.getD "") with
      | .error e =>
        (sys, .error (.http 500 ("Failed to retrieve secret from Vault: " ++ e)))
      | .ok vault_data =>
        let encrypted_sk := vault_data.secret_key
        let decoded : Except String (Option String) :=
          if encrypted_sk.isEmpty then .ok none
          else
            match CryptoUtil.decrypt env.cipher encrypted_sk with
            | .error e2 => .error e2
            | .ok plaintext => .ok (some plaintext)
        match decoded with
        | .error e2 =>
          (sys, .error (.http 500 ("Failed to retrieve secret from Vault: " ++ e2)))
        | .ok secret_key =>
          let details := ("User " ++ user_id ++ " retrieved credential for third-party API call")
          let audited := AuditLogDAO.create sys.db user_id
            "retrieve_credential_for_api" "credential" (some credential.id)
            (some credential.customer_id) credential.project_id
            (some credential.vendor_id) (some credential.id) (some details)
            ip_address user_agent
          ({ sys with db := audited.1 },
           .ok [("credential_id", .vint credential.id),
                ("access_key", .vstr credential.access_key),
                ("secret_key", PyVal.ofOptStr secret_key),
                ("vendor_id", .vint credential.vendor_id),
                ("customer_id", .vint credential.customer_id),
                ("project_id", PyVal.ofOptInt credential.project_id)])
    else
      (sys, .error (.http 503
        "Vault is not available. Cannot retrieve credentials securely."))

/-- CredentialService.update_credential (credential_service.py lines
356-475).  After lookup and permission check, a supplied secret key forces
Vault availability, a write of the re-encrypted secret to the newly
computed path, and a best-effort delete of the old path when the access key
changed (delete failures swallowed); then the CredentialDAO.update call is
made.  That call supplies the keywords in
credentialServiceUpdateCallKwargs, of which access_key names no DAO
parameter, so Python raises TypeError there (see
updateCall_unexpected_access_key) before any row is updated. -/
def update_credential (env : ServiceEnv) (sys : Sys) (credential_id : Int)
    (d : CredentialUpdate) (user_id : String)
    (ip_address user_agent : Option String := none) :
    Sys × Except SvcError (List (String × PyVal)) :=
  match CredentialDAO.get_by_id sys.db credential_id with
  | none =>
    (sys, .error (.http 404 ("Credential with ID " ++ toString credential_id ++ " not found")))
  | some credential =>
    if !(UserPermissionDAO.check_permission sys.db user_id
        (some credential.customer_id) credential.project_id) then
      (sys, .error (.http 403
        "User does not have permission to update this credential"))
    else
      let daoStep : Sys → Sys × Except SvcError (List (String × PyVal)) :=
        fun sysX =>
          ({ sysX with trace := sysX.trace ++ [Event.dbUpdateCall] },
           .error updateCallTypeError)
      if optTruthy d.secret_key then
        if !env.vaultAvailable then
          (sys, .error (.http 503
            "Vault is not available. Cannot update secret key securely."))
        else
          let new_access_key := resolveNewAccessKey credential d
          let new_vault_path := updateNewVaultPath env credential d
          let encrypted_sk := CryptoUtil.encrypt env.cipher (d.secret_key.getD "")
          let payload : VaultPayload :=
            { secret_key := encrypted_sk, access_key := new_access_key,
              customer_id := credential.customer_id,
              vendor_id := credential.vendor_id }
          match VaultUtil.write_secret env.client env.faults sys.vault
              new_vault_path payload with
          | .error e =>
            (sys, .error (.http 500 ("Failed to update secret in Vault: " ++ e)))
          | .ok vault1 =>
            let sys1 : Sys :=
              { sys with vault := vault1,
                         trace := sys.trace ++ [.vaultWrite new_vault_path] }
            let old_path := credential.vault_path.getD ""
            let sys2 : Sys :=
              if optTruthy d.access_key && optTruthy credential.vault_path
                  && old_path != new_vault_path then
                match VaultUtil.delete_secret env.client env.faults sys1.vault
                    old_path with
                | .ok vault2 =>
                  { sys1 with vault := vault2,
                              trace := sys1.trace ++ [.vaultDelete old_path] }
                | .error _ => sys1
              else sys1
            daoStep sys2
      else
        daoStep sys

end CredentialService

/-!  Concrete fixtures for instantiating the statements below. -/

/-- Vault backend that accepts every login and token. -/
def okBackend : VaultBackend where
  approleLogin := fun _ _ => .ok "login-token"
  isAuthenticated := fun _ => true

/-- Vault backend whose authentication always fails. -/
def failAuthBackend : VaultBackend where
  approleLogin := fun _ _ => .error "connection refused"
  isAuthenticated := fun _ => false

/-- File system with no readable files. -/
def fsNoFiles : String → FileResult := fun _ => .absent

/-- Service environment with a connected Vault adapter. -/
def envConnected : ServiceEnv where
  vault_credential_path := "secret/credentials"
  vault_util := some { client := some { token := some "tkn" } }
  backend := okBackend
  cipher := sampleCipher

/-- Service environment with Vault disabled (self.vault_util is None). -/
def envNoVault : ServiceEnv where
  vault_credential_path := "secret/credentials"
  vault_util := none
  backend := okBackend
  cipher := sampleCipher

/-- One customer row. -/
def acme : Customer := { id := 1, name := "Acme" }

/-- One vendor row. -/
def hwVendor : Vendor := { id := 1, name := "huaweicloud", display_name := "Huawei Cloud" }

/-- Grant of user u over all of customer 1. -/
def grantU : UserPermission := { id := 1, user_id := "u", customer_id := some 1 }

/-- Database holding the customer, vendor and grant rows and no
credential. -/
def dbCreate : Db :=
  { customers := [acme], vendors := [hwVendor], user_permissions := [grantU] }

/-- System state for the create scenario. -/
def sysCreate : Sys := { db := dbCreate }

/-- Valid credential creation request referencing the rows above. -/
def reqCreate : CredentialCreate :=
  { customer_id := 1, project_id := 1, vendor_id := 1,
    access_key := "AK1", secret_key := "SK1" }

/-- Vault path of the stored credential in the update scenario. -/
def oldPathAK1 : String := mkVaultPath "secret/credentials" 1 1 "AK1"

/-- Vault path targeted after rotating the access key to AK2. -/
def newPathAK2 : String := mkVaultPath "secret/credentials" 1 1 "AK2"

/-- Stored active credential with access key AK1. -/
def credAK1 : Credential :=
  { id := 1, customer_id := 1, vendor_id := 1, access_key := "AK1",
    vault_path := some oldPathAK1 }

/-- Database holding the credential above next to the create fixtures. -/
def dbUpdate : Db :=
  { customers := [acme], vendors := [hwVendor], credentials := [credAK1],
    user_permissions := [grantU], next_credential_id := 2 }

/-- System state for the rotation scenario; the Vault store holds the
encrypted old secret under the old path. -/
def sysUpdate : Sys :=
  { db := dbUpdate,
    vault := [(stripMount oldPathAK1,
      { secret_key := CryptoUtil.encrypt sampleCipher "SK1",
        access_key := "AK1", customer_id := 1, vendor_id := 1 })] }

/-- Rotation request: new access key and new secret key. -/
def reqRotate : CredentialUpdate :=
  { access_key := some "AK2", secret_key := some "SK2" }

/-- Stored credential whose status is disabled. -/
def credDisabled : Credential :=
  { id := 2, customer_id := 1, vendor_id := 1, access_key := "AKD",
    status := "disabled" }

/-- System state holding the disabled credential and no permission grant at
all. -/
def sysDisabled : Sys :=
  { db := { customers := [acme], vendors := [hwVendor],
            credentials := [credDisabled] } }

/-- Vault settings with an address and a static token configured. -/
def stTokenAuth : VaultSettings :=
  { vault_enabled := true, vault_addr := some "http://vault:8200",
    vault_token := some "tkn" }

/-- Vault settings with an address but no credentials of either method. -/
def stNoCreds : VaultSettings :=
  { vault_enabled := true, vault_addr := some "http://vault:8200" }

/-- Event-trace property asserted by the specification for rotation: an old
vault path is deleted only at a position strictly after the database
update. -/
def deletedOnlyAfterDbUpdate (tr : List Event) : Prop :=
  ∀ i p, tr.get? i = some (Event.vaultDelete p) →
    ∃ j, j < i ∧ tr.get? j = some Event.dbUpdateCall

/-!  Theorems.  -/

/-- Binding the CredentialDAO.create call of the service against the DAO
signature fails on the missing required parameter project_id. -/
theorem createCall_missing_project_id :
    pythonMissingRequired CredentialDAO.createRequiredParams
      credentialServiceCreateCallKwargs = some "project_id" := by decide

/-- Binding the CredentialDAO.update call of the service against the DAO
signature fails on the unexpected keyword access_key. -/
theorem updateCall_unexpected_access_key :
    pythonUnexpectedKwarg CredentialDAO.updateParams
      credentialServiceUpdateCallKwargs = some "access_key" := by decide

/-- C1: the claim asserts that a successful secret-store write during
CreateCredential is followed by a successful credential-row insert, a
returned summary, and a later retrieval of the exact secret.  The code
cannot do this: evaluated on existing customer 1 and vendor 1 with a
connected Vault, create_credential writes the secret to Vault and then
raises an uncaught TypeError at the CredentialDAO.create call (the DAO
requires project_id, the service supplies none), leaving the relational
state unchanged and inserting no row. -/
theorem create_credential_missing_project_id_bug :
    (CredentialService.create_credential envConnected sysCreate reqCreate "u").2
        = .error createCallTypeError
      ∧ (CredentialService.create_credential envConnected sysCreate reqCreate "u").1.db
        = dbCreate
      ∧ (CredentialService.create_credential envConnected sysCreate reqCreate "u").1.vault.length
        = 1 := ⟨rfl, rfl, rfl⟩

/-- C2: the claim asserts that UpdateCredential with a new access key and
secret succeeds and that the stored vault_path afterwards equals the newly
computed path.  The code cannot do this: evaluated on the stored active
credential AK1 with a permitted caller and a connected Vault,
update_credential writes the new secret and deletes the old path, then
raises an uncaught TypeError at the CredentialDAO.update call (access_key
is not a parameter of the DAO method, which can set neither access_key nor
vault_path), leaving the credential row unchanged. -/
theorem update_credential_unexpected_kwarg_bug :
    (CredentialService.update_credential envConnected sysUpdate 1 reqRotate "u").2
        = .error updateCallTypeError
      ∧ (CredentialService.update_credential envConnected sysUpdate 1 reqRotate "u").1.db
        = dbUpdate := ⟨rfl, rfl⟩

/-- C3 counterexample: in the rotation run on the stored credential AK1,
the old vault path is deleted at trace position 1 while the database update
only happens (and here, only starts) at position 2, so the claimed
delete-only-after-database-update ordering is violated. -/
theorem update_credential_delete_precedes_db_update :
    ¬ deletedOnlyAfterDbUpdate
      (CredentialService.update_credential envConnected sysUpdate 1 reqRotate "u").1.trace := by
  intro h
  have htr : (CredentialService.update_credential envConnected sysUpdate 1 reqRotate "u").1.trace
      = [Event.vaultWrite newPathAK2, Event.vaultDelete oldPathAK1, Event.dbUpdateCall] := by
    decide
  rw [htr] at h
  obtain ⟨j, hj, hget⟩ := h 1 oldPathAK1 rfl
  have hj0 : j = 0 := Nat.lt_one_iff.mp hj
  subst hj0
  exact absurd hget (by decide)

/-- C4 counterexample: the claim quantifies over every CreateCredential
request, but with the adapter unavailable and a nonexistent customer the
operation fails with the 404 customer error, not with the claimed
service-unavailable error. -/
theorem create_unavailable_hits_404_first :
    envNoVault.vaultAvailable = false
      ∧ (CredentialService.create_credential envNoVault { db := {} } reqCreate "u").2
          = .error (.http 404 "Customer with ID 1 not found")
      ∧ (CredentialService.create_credential envNoVault { db := {} } reqCreate "u").2
          ≠ .error (.http 503 "Vault is not available. Cannot store credentials securely.") := by
  refine ⟨rfl, rfl, ?_⟩
  intro h
  have : SvcError.http 404 "Customer with ID 1 not found"
      = SvcError.http 503 "Vault is not available. Cannot store credentials securely." :=
    Except.error.inj (rfl.trans h)
  exact absurd this (by decide)

/-- C4 amended: for every CreateCredential request whose referenced
customer and vendor exist, an unavailable secret store adapter fails the
operation with the 503 service-unavailable error, and a raising
secret-store write fails it with the 500 internal error; in both cases the
entire state, in particular the relational state, is unchanged and no
credential row is created. -/
theorem create_credential_failure_no_partial_state
    (env : ServiceEnv) (sys : Sys) (d : CredentialCreate) (user_id : String)
    (ip_address user_agent : Option String)
    (hcust : (CustomerDAO.get_by_id sys.db d.customer_id).isSome = true)
    (hvend : (VendorDAO.get_by_id sys.db d.vendor_id).isSome = true) :
    (env.vaultAvailable = false →
      (CredentialService.create_credential env sys d user_id ip_address user_agent).2
          = .error (.http 503 "Vault is not available. Cannot store credentials securely.")
        ∧ (CredentialService.create_credential env sys d user_id ip_address user_agent).1
          = sys)
    ∧ (env.vaultAvailable = true →
      ∀ e, VaultUtil.write_secret env.client env.faults sys.vault
          (CredentialService.createVaultPath env d)
          (CredentialService.createVaultPayload env d) = .error e →
      (CredentialService.create_credential env sys d user_id ip_address user_agent).2
          = .error (.http 500 ("Failed to store secret in Vault: " ++ e))
        ∧ (CredentialService.create_credential env sys d user_id ip_address user_agent).1
          = sys) := by
  obtain ⟨customer, hcusteq⟩ := Option.isSome_iff_exists.mp hcust
  obtain ⟨vendor, hvendeq⟩ := Option.isSome_iff_exists.mp hvend
  constructor
  · intro hun
    simp only [CredentialService.create_credential, hcusteq, hvendeq, hun,
      Bool.false_eq_true, if_false]
    exact ⟨trivial, trivial⟩
  · intro hav e he
    simp only [CredentialService.create_credential, hcusteq, hvendeq, hav,
      if_true, he]
    exact ⟨trivial, trivial⟩

/-- C4 amended witness: on the create fixture with Vault disabled, the
operation returns the 503 error and changes nothing. -/
theorem create_credential_failure_no_partial_state_witness :
    (CredentialService.create_credential envNoVault sysCreate reqCreate "u" none none).2
        = .error (.http 503 "Vault is not available. Cannot store credentials securely.")
      ∧ (CredentialService.create_credential envNoVault sysCreate reqCreate "u" none none).1
        = sysCreate :=
  (create_credential_failure_no_partial_state envNoVault sysCreate reqCreate "u"
    none none (by decide) (by decide)).1 (by decide)

/-- C5 counterexample: with an address and a static token configured and a
backend that rejects the authentication, constructing the adapter raises a
ConnectionError (modelled as the error result) instead of completing in an
unavailable state. -/
theorem vault_construction_raises_on_auth_failure :
    VaultUtil.init stTokenAuth fsNoFiles failAuthBackend
      = .error "Failed to connect to Vault: Failed to authenticate with Vault" := by
  rfl

/-- C5 amended: when Vault is enabled with an address but no usable
credential method can be resolved (no static token and no complete approle
pair, also after the file fallback), construction completes without
raising, leaves the client as None, and isAvailable is false; whereas a
selected method whose handshake or verification fails makes construction
raise a ConnectionError. -/
theorem vault_init_without_credentials_is_silent
    (st : VaultSettings) (fs : String → FileResult) (B : VaultBackend)
    (hen : st.vault_enabled = true)
    (haddr : optTruthy st.vault_addr = true)
    (hm : VaultUtil.resolveMethod st.vault_auth_method st.vault_token
        (VaultUtil.resolveCredFile st.vault_role_id st.vault_role_id_file fs)
        (VaultUtil.resolveCredFile st.vault_secret_id st.vault_secret_id_file fs)
      = none) :
    VaultUtil.init st fs B = .ok none
      ∧ VaultUtil.is_connected B none = false := by
  constructor
  · simp only [VaultUtil.init, hen, if_true, VaultUtil.connect, haddr,
      Bool.not_true, Bool.false_eq_true, if_false, hm]
  · rfl

/-- C5 amended witness: the no-credentials settings construct silently and
report unavailability. -/
theorem vault_init_without_credentials_is_silent_witness :
    VaultUtil.init stNoCreds fsNoFiles okBackend = .ok none
      ∧ VaultUtil.is_connected okBackend none = false :=
  vault_init_without_credentials_is_silent stNoCreds fsNoFiles okBackend
    rfl rfl rfl

/-- Helper: the SQL row filter of the permission query holds exactly when
the grant belongs to the user and each nullable scope column is null or
equals the requested scope. -/
theorem matchesGrant_eq_true_iff (user_id : String)
    (customer_id project_id : Option Int) (up : UserPermission) :
    UserPermissionDAO.matchesGrant user_id customer_id project_id up = true ↔
      up.user_id = user_id
        ∧ (up.customer_id = none ∨ up.customer_id = customer_id)
        ∧ (up.project_id = none ∨ up.project_id = project_id) := by
  obtain ⟨uid, uname, ucust, uproj, uptype⟩ := up
  cases ucust <;> cases uproj <;> cases customer_id <;> cases project_id <;>
    simp [UserPermissionDAO.matchesGrant, sqlEq, and_assoc]

/-- C6: check_permission returns true exactly when some stored grant has
the requesting user, a customer_id that is null or equals the requested
customer scope, and a project_id that is null or equals the requested
project scope; in particular a grant with both ids null matches any scope
and the absence of a matching grant yields false. -/
theorem check_permission_iff_matching_grant (db : Db) (user_id : String)
    (customer_id project_id : Option Int) :
    UserPermissionDAO.check_permission db user_id customer_id project_id = true ↔
      ∃ up ∈ db.user_permissions, up.user_id = user_id
        ∧ (up.customer_id = none ∨ up.customer_id = customer_id)
        ∧ (up.project_id = none ∨ up.project_id = project_id) := by
  unfold UserPermissionDAO.check_permission
  rw [decide_eq_true_eq, List.countP_pos_iff]
  constructor
  · rintro ⟨up, hmem, hp⟩
    exact ⟨up, hmem, (matchesGrant_eq_true_iff user_id customer_id project_id up).mp hp⟩
  · rintro ⟨up, hmem, hspec⟩
    exact ⟨up, hmem, (matchesGrant_eq_true_iff user_id customer_id project_id up).mpr hspec⟩

/-- C7: under the documented contracts of the Fernet cipher and the base64
codec, decrypt inverts encrypt on every non-empty string, and both map the
empty string to the empty string. -/
theorem encrypt_decrypt_roundtrip (C : CipherSuite) (s : String) (h : s ≠ "") :
    CryptoUtil.decrypt C (CryptoUtil.encrypt C s) = .ok s
      ∧ CryptoUtil.encrypt C "" = ""
      ∧ CryptoUtil.decrypt C "" = .ok "" := by
  refine ⟨?_, rfl, rfl⟩
  unfold CryptoUtil.encrypt CryptoUtil.decrypt
  rw [if_neg h]
  have hne : C.b64encode (C.fernetEncrypt s) ≠ "" :=
    C.b64_nonempty _ (C.fernet_nonempty s)
  rw [if_neg hne]
  simp only [C.b64_roundtrip, C.fernet_roundtrip]

/-- C7 witness: round trip of a concrete non-empty secret through the
sample cipher suite. -/
theorem encrypt_decrypt_roundtrip_witness :
    ("SK1" : String) ≠ ""
      ∧ CryptoUtil.decrypt sampleCipher (CryptoUtil.encrypt sampleCipher "SK1")
        = .ok "SK1" :=
  ⟨by decide, (encrypt_decrypt_roundtrip sampleCipher "SK1" (by decide)).1⟩

/-- C8: masking a key longer than the visible count preserves its length,
keeps the first visible characters, and masks the rest; a non-empty key no
longer than the visible count becomes all mask characters of the same
length; the empty key stays empty. -/
theorem mask_access_key_spec (k : String) (v : Nat) :
    (v < k.length →
        (CryptoUtil.mask_access_key k v).length = k.length
        ∧ (CryptoUtil.mask_access_key k v).data.take v = k.data.take v
        ∧ (CryptoUtil.mask_access_key k v).data.drop v
            = List.replicate (k.length - v) '*')
    ∧ (0 < k.length → k.length ≤ v →
        (CryptoUtil.mask_access_key k v).data = List.replicate k.length '*')
    ∧ (k = "" → CryptoUtil.mask_access_key k v = "") := by
  have hlen : k.length = k.data.length := rfl
  refine ⟨?_, ?_, ?_⟩
  · intro hv
    have hk : k ≠ "" := by
      intro he
      rw [he] at hv
      exact Nat.not_lt_zero v hv
    have hnle : ¬ k.length ≤ v := not_le.mpr hv
    have hvle : v ≤ k.data.length := by
      rw [← hlen]; exact Nat.le_of_lt hv
    unfold CryptoUtil.mask_access_key
    rw [if_neg hk, if_neg hnle]
    have htl : (k.data.take v).length = v := by
      rw [List.length_take]
      exact Nat.min_eq_left hvle
    refine ⟨?_, ?_, ?_⟩
    · show (k.data.take v ++ List.replicate (k.length - v) '*').length = k.length
      rw [List.length_append, htl, List.length_replicate, hlen]
      omega
    · show (k.data.take v ++ List.replicate (k.length - v) '*').take v = k.data.take v
      rw [List.take_append_eq_append_take, htl, List.take_take,
        Nat.min_self, Nat.sub_self, List.take_zero, List.append_nil]
    · show (k.data.take v ++ List.replicate (k.length - v) '*').drop v
          = List.replicate (k.length - v) '*'
      rw [List.drop_append_eq_append_drop, htl, Nat.sub_self, List.drop_zero,
        List.drop_take, Nat.sub_self, List.take_zero, List.nil_append]
  · intro h0 hle
    have hk : k ≠ "" := by
      intro he
      rw [he] at h0
      exact Nat.lt_irrefl 0 h0
    unfold CryptoUtil.mask_access_key
    rw [if_neg hk, if_pos hle]
  · intro he
    rw [he]
    rfl

/-- C8 witness: masking a fourteen-character key with four visible
characters, through the theorem. -/
theorem mask_access_key_spec_witness :
    4 < ("ABCD1234567890" : String).length
      ∧ ((CryptoUtil.mask_access_key "ABCD1234567890" 4).length
            = ("ABCD1234567890" : String).length
        ∧ (CryptoUtil.mask_access_key "ABCD1234567890" 4).data.take 4
            = ("ABCD1234567890" : String).data.take 4
        ∧ (CryptoUtil.mask_access_key "ABCD1234567890" 4).data.drop 4
            = List.replicate (("ABCD1234567890" : String).length - 4) '*') :=
  ⟨by decide, (mask_access_key_spec "ABCD1234567890" 4).1 (by decide)⟩

/-- C9: create_credential never uses the supplied project_id — its entire
outcome is invariant under changing that field; the computed vault path
always contains the literal no-project segment; and the keyword set of the
credential-row insert call contains no project_id argument. -/
theorem create_credential_ignores_project_id :
    (∀ (env : ServiceEnv) (sys : Sys) (d : CredentialCreate) (user_id : String)
        (ip_address user_agent : Option String) (p : Int),
      CredentialService.create_credential env sys { d with project_id := p }
          user_id ip_address user_agent
        = CredentialService.create_credential env sys d user_id ip_address user_agent)
    ∧ (∀ (base : String) (cid vid : Int) (ak : String),
        ∃ pre post, mkVaultPath base cid vid ak = pre ++ "no-project" ++ post)
    ∧ "project_id" ∉ credentialServiceCreateCallKwargs := by
  refine ⟨?_, ?_, by decide⟩
  · intro env sys d user_id ip_address user_agent p
    cases d
    rfl
  · intro base cid vid ak
    refine ⟨base ++ "/" ++ toString cid ++ "/",
            "/" ++ toString vid ++ "/" ++ ak, ?_⟩
    unfold mkVaultPath
    have h1 : ("/no-project/" : String) = "/" ++ "no-project" ++ "/" := rfl
    rw [h1]
    simp only [String.append_assoc]

/-- C9 witness: the create outcome at a concrete request is unchanged when
project_id is replaced by 42. -/
theorem create_credential_ignores_project_id_witness :
    CredentialService.create_credential envConnected sysCreate
        { reqCreate with project_id := 42 } "u" none none
      = CredentialService.create_credential envConnected sysCreate reqCreate
          "u" none none :=
  create_credential_ignores_project_id.1 envConnected sysCreate reqCreate
    "u" none none 42

/-- C10: when the stored credential is not active, both
get_credential_context and get_credential_for_api_call fail with the 400
not-active error for every caller and every permission table — the status
check runs before the permission check, so even a caller with no grant
receives the not-active error rather than Forbidden. -/
theorem inactive_status_checked_before_permission
    (env : ServiceEnv) (sys : Sys) (credential_id : Int) (user_id : String)
    (ip_address user_agent : Option String) (cred : Credential)
    (hc : CredentialDAO.get_by_id sys.db credential_id = some cred)
    (hs : cred.status ≠ "active") :
    (CredentialService.get_credential_context env sys credential_id user_id
        ip_address user_agent).2
      = .error (.http 400 ("Credential is not active (status: " ++ cred.status ++ ")"))
    ∧ (CredentialService.get_credential_for_api_call env sys credential_id user_id
        ip_address user_agent).2
      = .error (.http 400 ("Credential is not active (status: " ++ cred.status ++ ")")) := by
  have hbne : (cred.status != "active") = true := bne_iff_ne.mpr hs
  constructor
  · simp [CredentialService.get_credential_context, hc, hbne]
  · simp [CredentialService.get_credential_for_api_call, hc, hbne]

/-- C10 witness: on the disabled credential with an empty permission table,
both operations return the 400 not-active error to a caller holding no
grant. -/
theorem inactive_status_checked_before_permission_witness :
    (CredentialService.get_credential_context envConnected sysDisabled 2 "eve"
        none none).2
      = .error (.http 400 ("Credential is not active (status: " ++ credDisabled.status ++ ")"))
    ∧ (CredentialService.get_credential_for_api_call envConnected sysDisabled 2 "eve"
        none none).2
      = .error (.http 400 ("Credential is not active (status: " ++ credDisabled.status ++ ")")) :=
  inactive_status_checked_before_permission envConnected sysDisabled 2 "eve"
    none none credDisabled rfl (by decide)

/-- C3 amended: in every update_credential execution that supplies a new
secret, the appended event trace is empty (an error before the Vault
write), or the write of the newly computed vault path directly followed by
the database-update call, or that write, then the best-effort delete of the
old stored path, then the database-update call — so the new path is always
written before the old one is deleted and before the database update, and
the delete happens before, not after, the database update. -/
theorem update_credential_write_delete_db_order
    (env : ServiceEnv) (sys : Sys) (credential_id : Int) (d : CredentialUpdate)
    (user_id : String) (ip_address user_agent : Option String)
    (cred : Credential)
    (hc : CredentialDAO.get_by_id sys.db credential_id = some cred)
    (hs : optTruthy d.secret_key = true) :
    ∃ evs, (CredentialService.update_credential env sys credential_id d user_id
          ip_address user_agent).1.trace
        = sys.trace ++ evs
      ∧ (evs = []
        ∨ evs = [Event.vaultWrite (CredentialService.updateNewVaultPath env cred d),
                 Event.dbUpdateCall]
        ∨ evs = [Event.vaultWrite (CredentialService.updateNewVaultPath env cred d),
                 Event.vaultDelete (cred.vault_path.getD ""),
                 Event.dbUpdateCall]) := by
  simp only [CredentialService.update_credential, hc]
  by_cases hperm : UserPermissionDAO.check_permission sys.db user_id
      (some cred.customer_id) cred.project_id = true
  · simp only [hperm, Bool.not_true, Bool.false_eq_true, if_false, hs, if_true]
    by_cases hav : env.vaultAvailable = true
    · simp only [hav, Bool.not_true, Bool.false_eq_true, if_false]
      cases hw : VaultUtil.write_secret env.client env.faults sys.vault
          (CredentialService.updateNewVaultPath env cred d)
          { secret_key := CryptoUtil.encrypt env.cipher (d.secret_key.getD ""),
            access_key := CredentialService.resolveNewAccessKey cred d,
            customer_id := cred.customer_id, vendor_id := cred.vendor_id } with
      | error e =>
        exact ⟨[], by simp, Or.inl rfl⟩
      | ok vault1 =>
        by_cases hcond : (optTruthy d.access_key = true
              ∧ optTruthy cred.vault_path = true)
            ∧ ¬ cred.vault_path.getD ""
              = CredentialService.updateNewVaultPath env cred d
        · cases hdel : VaultUtil.delete_secret env.client env.faults vault1
              (cred.vault_path.getD "") with
          | ok vault2 =>
            refine ⟨[Event.vaultWrite (CredentialService.updateNewVaultPath env cred d),
                     Event.vaultDelete (cred.vault_path.getD ""),
                     Event.dbUpdateCall], ?_, Or.inr (Or.inr rfl)⟩
            simp [hw, hcond, hdel]
          | error e =>
            refine ⟨[Event.vaultWrite (CredentialService.updateNewVaultPath env cred d),
                     Event.dbUpdateCall], ?_, Or.inr (Or.inl rfl)⟩
            simp [hw, hcond, hdel]
        · refine ⟨[Event.vaultWrite (CredentialService.updateNewVaultPath env cred d),
                   Event.dbUpdateCall], ?_, Or.inr (Or.inl rfl)⟩
          simp [hw, hcond]
    · have hav0 : env.vaultAvailable = false := by
        cases h : env.vaultAvailable
        · rfl
        · exact absurd h hav
      simp only [hav0, Bool.not_false, if_true]
      exact ⟨[], by simp, Or.inl rfl⟩
  · have hperm0 : UserPermissionDAO.check_permission sys.db user_id
        (some cred.customer_id) cred.project_id = false := by
      cases h : UserPermissionDAO.check_permission sys.db user_id
          (some cred.customer_id) cred.project_id
      · rfl
      · exact absurd h hperm
    simp only [hperm0, Bool.not_false, if_true]
    exact ⟨[], by simp, Or.inl rfl⟩

/-- C3 amended witness: the concrete rotation run appends exactly the
write-then-delete-then-database-call trace. -/
theorem update_credential_write_delete_db_order_witness :
    optTruthy reqRotate.secret_key = true
      ∧ ∃ evs, (CredentialService.update_credential envConnected sysUpdate 1
            reqRotate "u" none none).1.trace
          = sysUpdate.trace ++ evs
        ∧ (evs = []
          ∨ evs = [Event.vaultWrite (CredentialService.updateNewVaultPath envConnected credAK1 reqRotate),
                   Event.dbUpdateCall]
          ∨ evs = [Event.vaultWrite (CredentialService.updateNewVaultPath envConnected credAK1 reqRotate),
                   Event.vaultDelete (credAK1.vault_path.getD ""),
                   Event.dbUpdateCall]) :=
  ⟨rfl, update_credential_write_delete_db_order envConnected sysUpdate 1
    reqRotate "u" none none credAK1 rfl rfl⟩

end ProjectService
